import Mathlib

/-!
Shallow embedding of the active code of `src/src/server.py` (the uncommented
block, lines 162-378) and the interactive client loop of `src/src/client.py`.
The second cited copy, `src/server/server.py`, defines `search_string_in_file`
and `search_string_in_file_cached` with byte-identical bodies, so one embedding
covers both.

File access is modelled by an explicit `FS` oracle: `pathExists` embeds
`os.path.exists`, and `read` embeds `open(...)` + line iteration /
`readlines()`, returning either the list of raw lines (each still carrying its
trailing newline, as Python yields them) or the exception class raised.
The function-attribute cache of `search_string_in_file_cached` is threaded as
an explicit `Option (List String)` argument and result (in the source it is a
single process-global attribute; its per-call semantics are unchanged).
-/

set_option maxRecDepth 100000

namespace SSLServer

/-- Embeds Python's `str.strip()` whitespace test: space, tab, newline,
carriage return, vertical tab, form feed. -/
def isPySpace (c : Char) : Bool :=
  c == ' ' || c == '\t' || c == '\n' || c == '\r' || c == Char.ofNat 11 || c == Char.ofNat 12

/-- Embeds Python's `str.strip()`: drop leading and trailing whitespace. -/
def pyStrip (s : String) : String :=
  String.mk (((s.data.dropWhile isPySpace).reverse.dropWhile isPySpace).reverse)

/-- Embeds `bytes.rstrip(b'\x00')` from `handle_client`'s receive line:
drop trailing NUL characters. -/
def rstripNulls (s : String) : String :=
  String.mk ((s.data.reverse.dropWhile (fun c => c == Char.ofNat 0)).reverse)

/-- ASCII lower-casing of one character, as `str.lower()` acts on the
letters of `"exit"`. -/
def pyLowerChar (c : Char) : Char :=
  if 65 ≤ c.toNat ∧ c.toNat ≤ 90 then Char.ofNat (c.toNat + 32) else c

/-- Embeds Python's `str.lower()` (ASCII case, as used on `"exit"`). -/
def pyLower (s : String) : String :=
  String.mk (s.data.map pyLowerChar)

/-- Result of opening and reading the reference file: the raw lines, or the
exception raised (`PermissionError` separately, since `search_string_in_file`
catches it separately); `msg` models Python's `str(e)`. -/
inductive ReadResult where
  | ok (lines : List String)
  | permissionDenied (msg : String)
  | failure (msg : String)
deriving DecidableEq

/-- File-system oracle: `pathExists` embeds `os.path.exists`, `read` embeds
opening the file with `encoding="utf-8"` and listing its lines. -/
structure FS where
  pathExists : String → Bool
  read : String → ReadResult

/-- The single-quote character used by the f-string error messages
(`'{file_path}'`). -/
def quoteChar : String := "\x27"

/-- Embeds the scan loop shared by both search functions
(`server.py` lines 254-257 and 280-283):
`for line in lines: if line.strip() == query: return "STRING EXISTS"`,
falling through to `"STRING NOT FOUND"`. -/
def scanLines : List String → String → String
  | [], _ => "STRING NOT FOUND"
  | line :: rest, query =>
    if pyStrip line = query then "STRING EXISTS" else scanLines rest query

/-- Embeds `search_string_in_file_cached` (`server.py` lines 265-283): build
the cache from the file on first use (a failed build returns an error string
and leaves the cache unbuilt), then scan the cached lines. -/
def search_string_in_file_cached (fs : FS) (cache : Option (List String))
    (file_path query : String) : String × Option (List String) :=
  match cache with
  | some lines => (scanLines lines query, some lines)
  | none =>
    match fs.read file_path with
    | .ok lines => (scanLines lines query, some lines)
    | .permissionDenied msg => ("ERROR: " ++ ("Failed to read file: " ++ msg), none)
    | .failure msg => ("ERROR: " ++ ("Failed to read file: " ++ msg), none)

/-- Embeds `search_string_in_file` (`server.py` lines 236-263): empty-query
guard, existence guard, then either a fresh scan of the file (reread mode) or
delegation to the cached search; `PermissionError` and generic exceptions from
the reread branch map to their f-string messages. -/
def search_string_in_file (fs : FS) (cache : Option (List String))
    (file_path query : String) (reread_on_query : Bool) : String × Option (List String) :=
  if pyStrip query = "" then ("ERROR: EMPTY QUERY", cache)
  else if fs.pathExists file_path = false then ("ERROR: FILE NOT FOUND", cache)
  else if reread_on_query then
    match fs.read file_path with
    | .ok lines => (scanLines lines query, cache)
    | .permissionDenied _m =>
      ("ERROR: " ++ ("Permission denied when accessing " ++ quoteChar ++ file_path ++ quoteChar ++ "."), cache)
    | .failure msg => ("ERROR: " ++ msg, cache)
  else
    search_string_in_file_cached fs cache file_path query

/-- Embeds `conn.sendall(f"{response}\n".encode("utf-8"))`: each response is
written as the response text followed by a single newline. -/
def serializeResponse (r : String) : String := r ++ "\n"

/-- Per-session state of `handle_client`: whether the loop is still running,
and the line cache visible to `search_string_in_file_cached`. -/
structure SessionState where
  isOpen : Bool
  cache : Option (List String)
deriving DecidableEq

/-- One iteration's input in `handle_client`'s `while True` loop: a received
message that decoded successfully, a `ConnectionResetError`, or any other
exception. -/
inductive Event where
  | msg (m : String)
  | reset
  | err (m : String)

/-- Embeds one iteration of `handle_client`'s loop (`server.py` lines
313-330): strip NULs and whitespace from the received message; an empty result
answers `ERROR: EMPTY QUERY` and the loop continues; otherwise the query goes
to `search_string_in_file` and its outcome is sent back; exceptions break the
loop (the connection is closed). The returned list is the sequence of writes
made to the socket during the iteration. -/
def handle_client_step (fs : FS) (file_path : String) (reread_on_query : Bool)
    (st : SessionState) (ev : Event) : SessionState × List String :=
  if st.isOpen then
    match ev with
    | .msg m =>
      let data := pyStrip (rstripNulls m)
      if data = "" then (st, [serializeResponse "ERROR: EMPTY QUERY"])
      else
        let r := search_string_in_file fs st.cache file_path data reread_on_query
        ({ isOpen := true, cache := r.snd }, [serializeResponse r.fst])
    | .reset => ({ st with isOpen := false }, [])
    | .err _ => ({ st with isOpen := false }, [])
  else (st, [])

/-- Runs `handle_client`'s loop over a sequence of successfully received
messages, collecting every write made to the socket. -/
def run_messages (fs : FS) (file_path : String) (reread_on_query : Bool) :
    SessionState → List String → SessionState × List String
  | st, [] => (st, [])
  | st, m :: ms =>
    let r := handle_client_step fs file_path reread_on_query st (.msg m)
    let rest := run_messages fs file_path reread_on_query r.fst ms
    (rest.fst, r.snd ++ rest.snd)

/-- What the interactive client (`client.py` lines 113-129) does with one line
of user input: strip it; a (lower-cased) `"exit"` breaks the loop and closes
the client socket, an empty line is skipped locally, anything else is sent to
the server. -/
inductive ClientAction where
  | exitClient
  | skipEmpty
  | send (q : String)
deriving DecidableEq

/-- Embeds the per-input decision of `run_client`'s loop
(`client.py` lines 113-124). -/
def client_input_action (input : String) : ClientAction :=
  let query := pyStrip input
  if pyLower query = "exit" then .exitClient
  else if query = "" then .skipEmpty
  else .send query

/-- A concrete file system for witnesses: every path exists and reads as the
two-line reference file of the spec's end-to-end scenario (`abc`, `def`). -/
def fsEx : FS :=
  { pathExists := fun _ => true, read := fun _ => .ok ["abc\n", "def\n"] }

/-- A concrete file system where no path exists. -/
def fsMissing : FS :=
  { pathExists := fun _ => false, read := fun _ => .failure "No such file" }

/-- The closed set of non-error and fixed-error outcomes `search_string_in_file`
can produce outside of exception mapping. -/
def fixedOutcomes : List String :=
  ["ERROR: EMPTY QUERY", "ERROR: FILE NOT FOUND", "STRING EXISTS", "STRING NOT FOUND"]

/-- Does a response string begin with the error tag `"ERROR: "`? -/
def startsWithERROR (s : String) : Bool :=
  s.data.take 7 == "ERROR: ".data

theorem scanLines_cases (lines : List String) (q : String) :
    scanLines lines q = "STRING EXISTS" ∨ scanLines lines q = "STRING NOT FOUND" := by
  induction lines with
  | nil => right; rfl
  | cons l rest ih =>
    by_cases h : pyStrip l = q
    · left; simp [scanLines, h]
    · simpa [scanLines, h] using ih

theorem scanLines_exists_iff (lines : List String) (q : String) :
    scanLines lines q = "STRING EXISTS" ↔ ∃ l ∈ lines, pyStrip l = q := by
  induction lines with
  | nil => simp [scanLines]
  | cons l rest ih =>
    by_cases h : pyStrip l = q
    · simp [scanLines, h]
    · simp [scanLines, h, ih]

theorem scanLines_not_found_iff (lines : List String) (q : String) :
    scanLines lines q = "STRING NOT FOUND" ↔ ¬ ∃ l ∈ lines, pyStrip l = q := by
  constructor
  · intro h hex
    have h2 := (scanLines_exists_iff lines q).mpr hex
    rw [h] at h2
    exact absurd h2 (by decide)
  · intro hn
    rcases scanLines_cases lines q with h | h
    · exact absurd ((scanLines_exists_iff lines q).mp h) hn
    · exact h

theorem startsWithERROR_append (t : String) :
    startsWithERROR ("ERROR: " ++ t) = true := by
  cases t with
  | mk data => rfl

theorem str_append_assoc (a b c : String) : a ++ b ++ c = a ++ (b ++ c) := by
  cases a; cases b; cases c
  show String.mk _ = String.mk _
  rw [List.append_assoc]

/-- `search_string_in_file` under a readable file and a query that survives
trimming reduces, in both policies (with an unbuilt cache), to the scan of the
file's lines. -/
theorem search_reduces_to_scan (fs : FS) (file_path q : String) (lines : List String)
    (hex : fs.pathExists file_path = true)
    (hread : fs.read file_path = ReadResult.ok lines)
    (hq : pyStrip q ≠ "") (reread : Bool) :
    (search_string_in_file fs none file_path q reread).fst = scanLines lines q := by
  cases reread with
  | true => simp [search_string_in_file, hq, hex, hread]
  | false => simp [search_string_in_file, search_string_in_file_cached, hq, hex, hread]

/-- C1 counterexample: the claim demands a trimmed-query comparison, but the
code compares each trimmed stored line against the query exactly as given.
With file content `["abc\n"]`-style (here `fsEx`: lines `abc`, `def`) and the
query `" abc"` — non-empty after trimming, and whose trimmed form `abc` equals
the trimmed first line — the code answers `STRING NOT FOUND` where the claim
requires `STRING EXISTS`. -/
theorem C1_counterexample :
    (search_string_in_file fsEx none "data.txt" " abc" true).fst = "STRING NOT FOUND"
    ∧ pyStrip " abc" = pyStrip "abc\n"
    ∧ (decide (pyStrip " abc" = "") = false)
    ∧ (decide ("STRING NOT FOUND" = "STRING EXISTS") = false) := by
  exact ⟨by decide, by decide, by decide, by decide⟩

/-- C1 (amended): for a present, readable reference file with lines `lines`
and a query `q` that is non-empty after trimming, `search_string_in_file`
(in either policy, starting from an unbuilt cache) returns `STRING EXISTS`
if and only if some line, after trimming surrounding whitespace, equals `q`
exactly as given (the function does not trim the query; its caller
`handle_client` strips it before the call), and returns `STRING NOT FOUND`
otherwise — never a false positive. -/
theorem C1_exact_whole_line_match (fs : FS) (file_path q : String) (lines : List String)
    (reread : Bool)
    (hex : fs.pathExists file_path = true)
    (hread : fs.read file_path = ReadResult.ok lines)
    (hq : pyStrip q ≠ "") :
    ((search_string_in_file fs none file_path q reread).fst = "STRING EXISTS"
      ↔ ∃ l ∈ lines, pyStrip l = q)
    ∧ ((search_string_in_file fs none file_path q reread).fst = "STRING NOT FOUND"
      ↔ ¬ ∃ l ∈ lines, pyStrip l = q) := by
  rw [search_reduces_to_scan fs file_path q lines hex hread hq reread]
  exact ⟨scanLines_exists_iff lines q, scanLines_not_found_iff lines q⟩

/-- Witness for C1: on the concrete file system `fsEx` (lines `abc`, `def`)
the amended theorem applies with query `abc` and yields `STRING EXISTS`. -/
theorem C1_witness :
    (search_string_in_file fsEx none "data.txt" "abc" true).fst = "STRING EXISTS" :=
  (C1_exact_whole_line_match fsEx "data.txt" "abc" ["abc\n", "def\n"] true rfl rfl
    (by decide)).1.mpr ⟨"abc\n", by simp, by decide⟩

/-- C2 counterexample: for a whitespace-only query the two functions disagree
even on identical content — `search_string_in_file` in reread mode answers
`ERROR: EMPTY QUERY` before touching the file, while
`search_string_in_file_cached` (cache already built from the same content)
performs the scan and answers `STRING NOT FOUND`. -/
theorem C2_counterexample :
    (search_string_in_file fsEx none "data.txt" " " true).fst = "ERROR: EMPTY QUERY"
    ∧ (search_string_in_file_cached fsEx (some ["abc\n", "def\n"]) "data.txt" " ").fst
      = "STRING NOT FOUND"
    ∧ (decide ((search_string_in_file fsEx none "data.txt" " " true).fst
      = (search_string_in_file_cached fsEx (some ["abc\n", "def\n"]) "data.txt" " ").fst)
      = false) := by
  exact ⟨by decide, by decide, by decide⟩

/-- C2 (amended): for a present, readable file whose content is unchanged on
disk, and every query that is non-empty after trimming, the reread-on-query
search and the cached search (its cache built from that same content) return
identical outcomes. (For empty or whitespace-only queries they differ:
`search_string_in_file` guards them with `ERROR: EMPTY QUERY`, while
`search_string_in_file_cached` has no such guard and scans.) -/
theorem C2_cache_reread_equivalence (fs : FS) (file_path q : String) (lines : List String)
    (hex : fs.pathExists file_path = true)
    (hread : fs.read file_path = ReadResult.ok lines)
    (hq : pyStrip q ≠ "") :
    (search_string_in_file fs none file_path q true).fst
      = (search_string_in_file_cached fs (some lines) file_path q).fst := by
  rw [search_reduces_to_scan fs file_path q lines hex hread hq true]
  rfl

/-- Witness for C2: on `fsEx` with query `abc`, both policies answer
`STRING EXISTS`. -/
theorem C2_witness :
    (search_string_in_file fsEx none "data.txt" "abc" true).fst
      = (search_string_in_file_cached fsEx (some ["abc\n", "def\n"]) "data.txt" "abc").fst :=
  C2_cache_reread_equivalence fsEx "data.txt" "abc" ["abc\n", "def\n"] rfl rfl (by decide)

/-- C9: once the cache is built (`cache = some lines`), every later call to
`search_string_in_file_cached` computes its outcome solely from that snapshot:
the result is `scanLines lines q`, the cache is returned unchanged (never
mutated), and the whole call is independent of the file system (the file is
never reopened — `fs2` may behave arbitrarily differently from `fs`) and of
the `file_path` argument (`p2` arbitrary). -/
theorem C9_cached_snapshot_invariant (fs fs2 : FS) (lines : List String) (p p2 q : String) :
    search_string_in_file_cached fs (some lines) p q = (scanLines lines q, some lines)
    ∧ search_string_in_file_cached fs (some lines) p q
      = search_string_in_file_cached fs2 (some lines) p2 q :=
  ⟨rfl, rfl⟩

/-- C10: the empty-query guard of `search_string_in_file` precedes the
file-existence guard: for every query whose trimmed form is empty the result
is `ERROR: EMPTY QUERY` — for every file system, including ones where the file
does not exist — and in particular it is never `ERROR: FILE NOT FOUND`
(equivalently, `ERROR: FILE NOT FOUND` arises only for queries that are
non-empty after trimming). -/
theorem C10_empty_check_precedes_file_check (fs : FS) (cache : Option (List String))
    (file_path q : String) (reread : Bool) (hq : pyStrip q = "") :
    (search_string_in_file fs cache file_path q reread).fst = "ERROR: EMPTY QUERY"
    ∧ (decide ((search_string_in_file fs cache file_path q reread).fst
      = "ERROR: FILE NOT FOUND") = false) := by
  have h : (search_string_in_file fs cache file_path q reread).fst = "ERROR: EMPTY QUERY" := by
    simp [search_string_in_file, hq]
  exact ⟨h, by rw [h]; decide⟩

/-- Witness for C10: on the file system `fsMissing`, where no path exists, a
whitespace-only query still yields `ERROR: EMPTY QUERY`, not
`ERROR: FILE NOT FOUND`. -/
theorem C10_witness :
    (search_string_in_file fsMissing none "data.txt" "   " true).fst = "ERROR: EMPTY QUERY"
    ∧ (decide ((search_string_in_file fsMissing none "data.txt" "   " true).fst
      = "ERROR: FILE NOT FOUND") = false) :=
  C10_empty_check_precedes_file_check fsMissing none "data.txt" "   " true (by decide)

/-- On the concrete file system `fsEx` every search outcome is one of
`ERROR: EMPTY QUERY`, `STRING EXISTS`, `STRING NOT FOUND`. -/
theorem fsEx_search_fst (cache : Option (List String)) (q : String) :
    (search_string_in_file fsEx cache "data.txt" q true).fst = "ERROR: EMPTY QUERY"
    ∨ (search_string_in_file fsEx cache "data.txt" q true).fst = "STRING EXISTS"
    ∨ (search_string_in_file fsEx cache "data.txt" q true).fst = "STRING NOT FOUND" := by
  by_cases h : pyStrip q = ""
  · left; simp [search_string_in_file, h]
  · right
    have h2 : (search_string_in_file fsEx cache "data.txt" q true).fst
        = scanLines ["abc\n", "def\n"] q := by
      simp [search_string_in_file, h, fsEx]
    rw [h2]
    exact scanLines_cases ["abc\n", "def\n"] q

/-- C3: the code has no wall-clock budget and no timeout mechanism. The scan
loop's only possible outcomes are `STRING EXISTS` and `STRING NOT FOUND`; a
concrete query over the reference file runs to completion and yields
`STRING NOT FOUND`, never `ERROR: TIMEOUT`. This contradicts the claim that a
configured budget bounds the search and produces the timeout error when it
elapses. -/
theorem C3_no_timeout_mechanism :
    (∀ (lines : List String) (q : String),
      scanLines lines q = "STRING EXISTS" ∨ scanLines lines q = "STRING NOT FOUND")
    ∧ (search_string_in_file fsEx none "data.txt" "needle" true).fst = "STRING NOT FOUND"
    ∧ (decide ((search_string_in_file fsEx none "data.txt" "needle" true).fst
      = "ERROR: TIMEOUT") = false) :=
  ⟨scanLines_cases, by decide, by decide⟩

/-- C4: `handle_client` has no rate limiter. Six identical back-to-back
queries from one session all reach `search_string_in_file` and are all
answered `STRING EXISTS`; moreover every response an iteration can emit on
`fsEx` is an empty-query error or a search outcome — the string
`ERROR: RATE LIMIT EXCEEDED` is never produced. This contradicts the claim
that a sliding-window check rejects the (N+1)-th request within the window. -/
theorem C4_no_rate_limiter :
    (run_messages fsEx "data.txt" true { isOpen := true, cache := none }
      ["abc", "abc", "abc", "abc", "abc", "abc"]).snd
      = ["STRING EXISTS\n", "STRING EXISTS\n", "STRING EXISTS\n",
         "STRING EXISTS\n", "STRING EXISTS\n", "STRING EXISTS\n"]
    ∧ (∀ (st : SessionState) (m : String),
      ((handle_client_step fsEx "data.txt" true st (.msg m)).snd.all
        (fun o => o == "ERROR: EMPTY QUERY\n" || o == "STRING EXISTS\n"
          || o == "STRING NOT FOUND\n")) = true) := by
  constructor
  · decide
  · intro st m
    cases hst : st.isOpen with
    | false => simp [handle_client_step, hst]
    | true =>
      by_cases hd : pyStrip (rstripNulls m) = ""
      · simp [handle_client_step, hst, hd, serializeResponse]
      · have hall : ∀ s : String,
            s = "ERROR: EMPTY QUERY" ∨ s = "STRING EXISTS" ∨ s = "STRING NOT FOUND" →
            ([serializeResponse s].all
              (fun o => o == "ERROR: EMPTY QUERY\n" || o == "STRING EXISTS\n"
                || o == "STRING NOT FOUND\n")) = true := by
          intro s hs
          rcases hs with h | h | h <;> subst h <;> decide
        simp only [handle_client_step, hst, if_true, hd, if_false]
        exact hall _ (fsEx_search_fst st.cache (pyStrip (rstripNulls m)))

/-- C5 counterexample: the server does not recognize exit keywords. On
receiving `exit` (or `QUIT`) the session treats it as a search query, answers
`STRING NOT FOUND`, and stays open — no farewell line is sent and the session
is not closed. -/
theorem C5_counterexample :
    handle_client_step fsEx "data.txt" true { isOpen := true, cache := none } (.msg "exit")
      = ({ isOpen := true, cache := none }, ["STRING NOT FOUND\n"])
    ∧ (handle_client_step fsEx "data.txt" true { isOpen := true, cache := none }
      (.msg "exit")).fst.isOpen = true
    ∧ handle_client_step fsEx "data.txt" true { isOpen := true, cache := none } (.msg "QUIT")
      = ({ isOpen := true, cache := none }, ["STRING NOT FOUND\n"]) :=
  ⟨by decide, by decide, by decide⟩

/-- C5 (amended): exit handling lives only in the interactive client, not the
server. The client intercepts the keyword `exit` (case-insensitively, after
stripping) before sending, closing its own socket without any server farewell;
`quit` is not an exit keyword for it and is sent as an ordinary query, which
the server answers as a search and keeps the session open. -/
theorem C5_exit_handled_by_client_only :
    client_input_action "exit" = ClientAction.exitClient
    ∧ client_input_action " EXIT " = ClientAction.exitClient
    ∧ client_input_action "Quit" = ClientAction.send "Quit"
    ∧ handle_client_step fsEx "data.txt" true { isOpen := true, cache := none } (.msg "quit")
      = ({ isOpen := true, cache := none }, ["STRING NOT FOUND\n"]) :=
  ⟨by decide, by decide, by decide, by decide⟩

/-- A query of 1025 `a` characters — one byte past the 1024-byte receive
buffer, the only size constant in the code. -/
def longQuery : String := String.mk (List.replicate 1025 (Char.ofNat 97))

/-- C6: `handle_client` checks no maximum query length. A 1025-character query
is not rejected: it reaches `search_string_in_file`, is answered with a search
outcome (`STRING NOT FOUND`), and the session stays open; the string
`ERROR: QUERY TOO LONG` is never produced. This contradicts the claim that a
query one byte over the configured maximum is rejected before the executor. -/
theorem C6_no_length_limit :
    (handle_client_step fsEx "data.txt" true { isOpen := true, cache := none }
      (.msg longQuery)).snd = ["STRING NOT FOUND\n"]
    ∧ (handle_client_step fsEx "data.txt" true { isOpen := true, cache := none }
      (.msg longQuery)).fst.isOpen = true
    ∧ longQuery.data.length = 1025
    ∧ (decide ("STRING NOT FOUND\n" = "ERROR: QUERY TOO LONG\n") = false) :=
  ⟨by decide, by decide, by decide, by decide⟩

/-- C7: `search_string_in_file` is total at its interface. Every file-system
behavior — missing file, permission denial, decode or I/O failure — is mapped
to a returned string: the outcome is either one of the four fixed responses or
an error string beginning with `ERROR: ` (never an unhandled exception, which
in this embedding would be a result outside the function's `String` range).
And `handle_client` serializes every outcome as the response text followed by
exactly one newline, in a single write. -/
theorem C7_total_closed_outcomes :
    (∀ (fs : FS) (cache : Option (List String)) (file_path q : String) (reread : Bool),
      (search_string_in_file fs cache file_path q reread).fst ∈ fixedOutcomes
      ∨ startsWithERROR (search_string_in_file fs cache file_path q reread).fst = true)
    ∧ (∀ r : String, serializeResponse r = r ++ "\n") := by
  constructor
  · intro fs cache fp q reread
    by_cases h1 : pyStrip q = ""
    · left; simp [search_string_in_file, h1, fixedOutcomes]
    · by_cases h2 : fs.pathExists fp = false
      · left; simp [search_string_in_file, h1, h2, fixedOutcomes]
      · cases reread with
        | true =>
          cases hr : fs.read fp with
          | ok lines =>
            have hs : (search_string_in_file fs cache fp q true).fst = scanLines lines q := by
              simp [search_string_in_file, h1, h2, hr]
            left
            rw [hs]
            rcases scanLines_cases lines q with h | h <;> simp [h, fixedOutcomes]
          | permissionDenied m =>
            right
            have hs : (search_string_in_file fs cache fp q true).fst
                = "ERROR: " ++ ("Permission denied when accessing "
                  ++ quoteChar ++ fp ++ quoteChar ++ ".") := by
              simp [search_string_in_file, h1, h2, hr]
            rw [hs]
            exact startsWithERROR_append _
          | failure m =>
            right
            have hs : (search_string_in_file fs cache fp q true).fst = "ERROR: " ++ m := by
              simp [search_string_in_file, h1, h2, hr]
            rw [hs]
            exact startsWithERROR_append _
        | false =>
          cases cache with
          | some lines =>
            have hs : (search_string_in_file fs (some lines) fp q false).fst
                = scanLines lines q := by
              simp [search_string_in_file, search_string_in_file_cached, h1, h2]
            left
            rw [hs]
            rcases scanLines_cases lines q with h | h <;> simp [h, fixedOutcomes]
          | none =>
            cases hr : fs.read fp with
            | ok lines =>
              have hs : (search_string_in_file fs none fp q false).fst
                  = scanLines lines q := by
                simp [search_string_in_file, search_string_in_file_cached, h1, h2, hr]
              left
              rw [hs]
              rcases scanLines_cases lines q with h | h <;> simp [h, fixedOutcomes]
            | permissionDenied m =>
              right
              have hs : (search_string_in_file fs none fp q false).fst
                  = "ERROR: " ++ ("Failed to read file: " ++ m) := by
                simp [search_string_in_file, search_string_in_file_cached, h1, h2, hr]
              rw [hs]
              exact startsWithERROR_append _
            | failure m =>
              right
              have hs : (search_string_in_file fs none fp q false).fst
                  = "ERROR: " ++ ("Failed to read file: " ++ m) := by
                simp [search_string_in_file, search_string_in_file_cached, h1, h2, hr]
              rw [hs]
              exact startsWithERROR_append _
  · intro r; rfl

/-- C8: a received message that strips to the empty string (empty or
whitespace-only after decoding) is answered `ERROR: EMPTY QUERY` and the
session stays open with its cache untouched: the loop returns to awaiting the
next query instead of closing the connection. -/
theorem C8_empty_query_keeps_session_open (fs : FS) (file_path : String) (reread : Bool)
    (cache : Option (List String)) (m : String)
    (h : pyStrip (rstripNulls m) = "") :
    handle_client_step fs file_path reread { isOpen := true, cache := cache } (.msg m)
      = ({ isOpen := true, cache := cache }, ["ERROR: EMPTY QUERY\n"]) := by
  simp [handle_client_step, h, serializeResponse]

/-- Witness for C8: a whitespace-only message on `fsEx` is answered
`ERROR: EMPTY QUERY` and the session remains open. -/
theorem C8_witness :
    handle_client_step fsEx "data.txt" true { isOpen := true, cache := none } (.msg "   ")
      = ({ isOpen := true, cache := none }, ["ERROR: EMPTY QUERY\n"]) :=
  C8_empty_query_keeps_session_open fsEx "data.txt" true none "   " (by decide)

end SSLServer
